import Mathlib

/-!
Shallow embedding of `daikin_ir.ino`: an IR record/replay state machine for
an AVR ATMega328 Arduino.  Machine integers are modelled as `Nat` with
explicit reductions: 8-bit (`state`), 16-bit (`sig` entries, `rxSize`,
`txLen`) and 32-bit (`micros`, `millis`) quantities wrap at `2^8`, `2^16`
and `2^32` respectively.  The two 400-entry `uint16_t sig[2][400]` buffers
are modelled as one flat memory `mem : Nat → Nat` of 16-bit cells, slot `i`
occupying cells `400*i .. 400*i+399`; the pointers `rxBuf`/`txBuf` are flat
cell indices, `nullptr` being modelled as the out-of-array index `nullIdx`.
Hardware primitives: `digitalWrite` on the three LEDs becomes a field
update; `digitalRead`/`micros`/`millis` become per-poll inputs; `tone`,
`noTone` and `delayMicroseconds` become an emitted action trace (`TxAct`).
-/

namespace DaikinIR

/-- 32-bit modulus for the microsecond/millisecond clocks (`uint32_t`). -/
def U32 : Nat := 2 ^ 32

/-- 16-bit modulus for the signal-buffer entries and counters (`uint16_t`). -/
def U16 : Nat := 2 ^ 16

/-- Wrapping `uint32_t` subtraction `a - b` (assumes `b < U32`). -/
def sub32 (a b : Nat) : Nat := (a + U32 - b) % U32

/-- Arduino `HIGH`. -/
def HIGH : Nat := 1

/-- Arduino `LOW`. -/
def LOW : Nat := 0

/-- `kRxTimeoutMicros = 1ul << 16`. -/
def kRxTimeoutMicros : Nat := (1 <<< 16) % U32

/-- `kDelay1Millis = 12ul * 60 * 60 * 1000`, computed in `uint32_t`. -/
def kDelay1Millis : Nat := (12 * 60 * 60 * 1000) % U32

/-- `kCycleMillis = 24ul * 60 * 60 * 1000`, computed in `uint32_t`. -/
def kCycleMillis : Nat := (24 * 60 * 60 * 1000) % U32

/-- `kCarrierFreq = 38000ul`. -/
def kCarrierFreq : Nat := 38000

/-- The `State` enumerators. -/
def STATE_UNINITED : Nat := 0

/-- `STATE_LEARN_0`. -/
def STATE_LEARN_0 : Nat := 1

/-- `STATE_LEARN_1`. -/
def STATE_LEARN_1 : Nat := 2

/-- `STATE_INITED`. -/
def STATE_INITED : Nat := 3

/-- `STATE_SEND_0`. -/
def STATE_SEND_0 : Nat := 4

/-- `STATE_WAIT_0`. -/
def STATE_WAIT_0 : Nat := 5

/-- `STATE_SEND_1`. -/
def STATE_SEND_1 : Nat := 6

/-- `STATE_WAIT_1`. -/
def STATE_WAIT_1 : Nat := 7

/-- Number of `uint16_t` entries in each `sig` slot (`sizeof(sig[i])/sizeof(*sig[i])`). -/
def sigCap : Nat := 400

/-- Flat cell index of the first entry of `sig[i]`. -/
def sigBase (i : Nat) : Nat := sigCap * i

/-- `nullptr`, modelled as a cell index outside both slots. -/
def nullIdx : Nat := 1000

/-- `sizeof(uint16_t *)` on the target MCU (AVR ATMega328 has 16-bit data pointers). -/
def sizeofPtr : Nat := 2

/-- `sizeof(uint16_t)`. -/
def sizeofU16 : Nat := 2

/-- Number of 16-bit cells cleared by `memset(rxBuf, 0, rxSize * sizeof(rxBuf))`
with `rxSize = 400`: `400 * sizeof(uint16_t *) / sizeof(uint16_t) = 400`. -/
def memsetCells : Nat := sigCap * sizeofPtr / sizeofU16

/-- The program's global mutable state. -/
structure DState where
  state : Nat
  prevButton : Nat
  mem : Nat → Nat
  rxBuf : Nat
  rxSize : Nat
  prevRx : Nat
  startMicros : Nat
  txBuf : Nat
  txLen : Nat
  txHigh : Bool
  waitStartMillis : Nat
  waitDelayMillis : Nat
  redLed : Nat
  greenLed : Nat
  builtinLed : Nat

/-- The hardware readings consumed by one poll: `digitalRead(kButtonPin)`,
`digitalRead(kRxPin)`, `micros()` and `millis()`. -/
structure Inputs where
  button : Nat
  rx : Nat
  micros : Nat
  millis : Nat

/-- A transmit-side hardware action: `tone(kTxPin, f)`, `noTone(kTxPin)` or
`delayMicroseconds(n)`. -/
inductive TxAct where
  | tone (f : Nat)
  | noTone
  | delayMicros (n : Nat)
deriving DecidableEq, Repr

/-- `startRx(i)`: reset the capture cursor onto slot `i` and `memset` the slot. -/
def startRx (i : Nat) (s : DState) : DState :=
  { s with
    rxBuf := sigBase i
    rxSize := sigCap
    mem := fun j => if sigBase i ≤ j ∧ j < sigBase i + memsetCells then 0 else s.mem j
    startMicros := 0
    prevRx := HIGH }

/-- The result of the `while (txLen && !txBuf[txLen - 1]) --txLen;` trimming
loop in `startTx`, starting from length `n`. -/
def trimLen (m : Nat → Nat) (base : Nat) : Nat → Nat
  | 0 => 0
  | k + 1 => if m (base + k) = 0 then trimLen m base k else k + 1

/-- `startTx(i)`: red LED on, reset the playback cursor onto slot `i`,
trimming the unused zero tail. -/
def startTx (i : Nat) (s : DState) : DState :=
  { s with
    redLed := HIGH
    txBuf := sigBase i
    txLen := trimLen s.mem (sigBase i) sigCap
    txHigh := false }

/-- `startWait(delayMillis)`: red LED off, arm the wait timer (`ms` is the
current `millis()` reading). -/
def startWait (delayMillis ms : Nat) (s : DState) : DState :=
  { s with
    redLed := LOW
    waitStartMillis := ms % U32
    waitDelayMillis := delayMillis }

/-- `setState(newState)`: no-op when equal to the current state, otherwise
update the state and run the entry action of the `switch`.  `ms` is the
current `millis()` reading (consumed by `startWait`). -/
def setState (newState ms : Nat) (s : DState) : DState :=
  if newState = s.state then s
  else
    let t : DState := { s with state := newState }
    if newState = STATE_UNINITED then { t with redLed := LOW, greenLed := LOW }
    else if newState = STATE_LEARN_0 then startRx 0 { t with redLed := HIGH, greenLed := LOW }
    else if newState = STATE_LEARN_1 then startRx 1 { t with redLed := HIGH, greenLed := HIGH }
    else if newState = STATE_INITED then { t with redLed := LOW, greenLed := HIGH }
    else if newState = STATE_SEND_0 then startTx 0 t
    else if newState = STATE_WAIT_0 then startWait kDelay1Millis ms { t with builtinLed := HIGH }
    else if newState = STATE_SEND_1 then startTx 1 t
    else if newState = STATE_WAIT_1 then
      startWait (kCycleMillis - kDelay1Millis) ms { t with builtinLed := LOW }
    else t

/-- `isButtonEvent()`: rising-edge detector on the button pin.  Returns the
event flag together with the updated state (`prevButton`). -/
def isButtonEvent (btn : Nat) (s : DState) : Bool × DState :=
  if btn = s.prevButton then (false, s)
  else (btn == HIGH, { s with prevButton := btn })

/-- `loopUninitialized()`. -/
def loopUninitialized (inp : Inputs) (s : DState) : DState :=
  if (isButtonEvent inp.button s).1 then
    setState STATE_LEARN_0 inp.millis (isButtonEvent inp.button s).2
  else (isButtonEvent inp.button s).2

/-- The recording assignments of `loopRx` (`prevRx = rx; *rxBuf = now -
startMicros; ++rxBuf; --rxSize; startMicros = now;`), with `rx` the pin
level and `now` the (32-bit) `micros()` reading. -/
def rxRecord (rx now : Nat) (s : DState) : DState :=
  { s with
    prevRx := rx
    mem := Function.update s.mem s.rxBuf (sub32 now s.startMicros % U16)
    rxBuf := s.rxBuf + 1
    rxSize := (s.rxSize + (U16 - 1)) % U16
    startMicros := now }

/-- `loopRx()`: one capture poll. -/
def loopRx (inp : Inputs) (s : DState) : DState :=
  if s.startMicros ≠ 0 ∧ kRxTimeoutMicros ≤ sub32 (inp.micros % U32) s.startMicros then
    setState ((s.state + 1) % 2 ^ 8) inp.millis s
  else if inp.rx = s.prevRx then s
  else if (rxRecord inp.rx (inp.micros % U32) s).rxSize = 0 then
    setState STATE_UNINITED inp.millis (rxRecord inp.rx (inp.micros % U32) s)
  else rxRecord inp.rx (inp.micros % U32) s

/-- `loopInitialized()`. -/
def loopInitialized (inp : Inputs) (s : DState) : DState :=
  if (isButtonEvent inp.button s).1 then
    setState STATE_SEND_0 inp.millis (isButtonEvent inp.button s).2
  else (isButtonEvent inp.button s).2

/-- The carrier actions of one `loopTx` poll: `tone`/`noTone` plus
`delayMicroseconds(*txBuf)` when the current entry is non-zero, nothing
otherwise. -/
def txActs (s : DState) : List TxAct :=
  if s.mem s.txBuf ≠ 0 then
    [if s.txHigh then TxAct.tone kCarrierFreq else TxAct.noTone,
      TxAct.delayMicros (s.mem s.txBuf)]
  else []

/-- The cursor advance of `loopTx` (`++txBuf; --txLen; txHigh = !txHigh;`). -/
def txStep (s : DState) : DState :=
  { s with
    txBuf := s.txBuf + 1
    txLen := (s.txLen + (U16 - 1)) % U16
    txHigh := !s.txHigh }

/-- `loopTx()`: one playback poll; returns the new state and the emitted
hardware actions (`tone`/`noTone`/`delayMicroseconds`) in program order. -/
def loopTx (ms : Nat) (s : DState) : DState × List TxAct :=
  if (txStep s).txLen = 0 then
    (setState (((txStep s).state + 1) % 2 ^ 8) ms { txStep s with txBuf := nullIdx },
      txActs s ++ [TxAct.noTone])
  else (txStep s, txActs s)

/-- `loopWait()`: one wait poll. -/
def loopWait (inp : Inputs) (s : DState) : DState :=
  if (isButtonEvent inp.button s).1 then
    setState STATE_SEND_0 inp.millis (isButtonEvent inp.button s).2
  else if ((isButtonEvent inp.button s).2).waitDelayMillis <
      sub32 (inp.millis % U32) ((isButtonEvent inp.button s).2).waitStartMillis then
    setState ((((isButtonEvent inp.button s).2).state + 1) % 2 ^ 8) inp.millis
      { (isButtonEvent inp.button s).2 with waitStartMillis := 0 }
  else (isButtonEvent inp.button s).2

/-- `loop()`: dispatch one poll to the handler of the current state; returns
the new state and any emitted transmit actions. -/
def loop (inp : Inputs) (s : DState) : DState × List TxAct :=
  if s.state = STATE_UNINITED then (loopUninitialized inp s, [])
  else if s.state = STATE_LEARN_0 ∨ s.state = STATE_LEARN_1 then (loopRx inp s, [])
  else if s.state = STATE_INITED then (loopInitialized inp s, [])
  else if s.state = STATE_SEND_0 ∨ s.state = STATE_SEND_1 then loopTx inp.millis s
  else if s.state = STATE_WAIT_0 ∨ s.state = STATE_WAIT_1 then (loopWait inp s, [])
  else (setState STATE_SEND_0 inp.millis s, [])

/-- The global state right after reset: C statics are zero-initialized,
both buffer pointers are `nullptr`. -/
def zeroState : DState :=
  { state := 0, prevButton := 0, mem := fun _ => 0, rxBuf := nullIdx, rxSize := 0
    prevRx := 0, startMicros := 0, txBuf := nullIdx, txLen := 0, txHigh := false
    waitStartMillis := 0, waitDelayMillis := 0, redLed := 0, greenLed := 0, builtinLed := 0 }

/-- The state after `setup()`: `prevButton = prevRx = HIGH`, all LEDs written `LOW`. -/
def setupState : DState :=
  { zeroState with prevButton := HIGH, prevRx := HIGH }

/-- Repeatedly call `loop` on a list of polls, discarding the action trace. -/
def runLoop (inps : List Inputs) (s : DState) : DState :=
  inps.foldl (fun t i => (loop i t).1) s

/-- Repeatedly call `loopRx` on a list of polls. -/
def runRx (inps : List Inputs) (s : DState) : DState :=
  inps.foldl (fun t i => loopRx i t) s

/-- Call `loopTx` a fixed number of times, concatenating the action traces. -/
def runTx (ms : Nat) : Nat → DState → DState × List TxAct
  | 0, s => (s, [])
  | n + 1, s =>
    let r := loopTx ms s
    let r2 := runTx ms n r.1
    (r2.1, r.2 ++ r2.2)

/-! ### Basic lemmas about the embedded primitives -/

theorem setState_state (n ms : Nat) (s : DState) : (setState n ms s).state = n := by
  unfold setState
  split_ifs with h <;> simp_all [startRx, startTx, startWait]

theorem sub32_eq_sub (a b : Nat) (hb : b ≤ a) (ha : a < U32) : sub32 a b = a - b := by
  unfold sub32 U32 at *
  omega

theorem dec16 (x : Nat) (h1 : 1 ≤ x) (h2 : x < U16) : (x + (U16 - 1)) % U16 = x - 1 := by
  unfold U16 at *
  omega

theorem trimLen_le (m : Nat → Nat) (base : Nat) : ∀ n, trimLen m base n ≤ n := by
  intro n
  induction n with
  | zero => simp [trimLen]
  | succ k ih =>
    unfold trimLen
    split <;> omega

theorem trimLen_tail (m : Nat → Nat) (base : Nat) :
    ∀ n j, trimLen m base n ≤ j → j < n → m (base + j) = 0 := by
  intro n
  induction n with
  | zero => omega
  | succ k ih =>
    intro j h1 h2
    unfold trimLen at h1
    split at h1
    · rcases Nat.lt_or_ge j k with hj | hj
      · exact ih j h1 hj
      · have : j = k := by omega
        subst this
        assumption
    · omega

theorem trimLen_last (m : Nat → Nat) (base : Nat) (n : Nat)
    (h : 0 < trimLen m base n) : m (base + (trimLen m base n - 1)) ≠ 0 := by
  induction n with
  | zero => simp [trimLen] at h
  | succ k ih =>
    unfold trimLen at h ⊢
    split at h
    · split
      · exact ih h
      · omega
    · simp_all

theorem trimLen_eq_zero (m : Nat → Nat) (base : Nat) (n : Nat)
    (h : ∀ j, j < n → m (base + j) = 0) : trimLen m base n = 0 := by
  induction n with
  | zero => rfl
  | succ k ih =>
    unfold trimLen
    rw [if_pos (h k (by omega))]
    exact ih fun j hj => h j (by omega)

/-! ### C7: wait-delay constants -/

/-- C7: entering `WAIT_SHORT` arms the wait timer for exactly 43,200,000 ms
and entering `WAIT_LONG` arms it for `86,400,000 - 43,200,000 = 43,200,000`
ms; the constant expressions `12ul*60*60*1000` and `24ul*60*60*1000`
evaluate to 43,200,000 and 86,400,000 without 32-bit overflow. -/
theorem wait_delays_armed (ms : Nat) (s t : DState)
    (h5 : s.state ≠ STATE_WAIT_0) (h7 : t.state ≠ STATE_WAIT_1) :
    12 * 60 * 60 * 1000 < U32 ∧ 24 * 60 * 60 * 1000 < U32 ∧
    kDelay1Millis = 43200000 ∧ kCycleMillis = 86400000 ∧
    kCycleMillis - kDelay1Millis = 43200000 ∧
    (setState STATE_WAIT_0 ms s).waitDelayMillis = 43200000 ∧
    (setState STATE_WAIT_1 ms t).waitDelayMillis = 43200000 := by
  refine ⟨by decide, by decide, by decide, by decide, by decide, ?_, ?_⟩
  · unfold setState
    rw [if_neg (fun hc => h5 hc.symm)]
    norm_num [STATE_WAIT_0, STATE_UNINITED, STATE_LEARN_0, STATE_LEARN_1, STATE_INITED,
      STATE_SEND_0, startWait]
    decide
  · unfold setState
    rw [if_neg (fun hc => h7 hc.symm)]
    norm_num [STATE_WAIT_1, STATE_UNINITED, STATE_LEARN_0, STATE_LEARN_1, STATE_INITED,
      STATE_SEND_0, STATE_WAIT_0, STATE_SEND_1, startWait]
    decide

/-- Witness for C7 at a concrete state. -/
theorem wait_delays_armed_witness :
    setupState.state ≠ STATE_WAIT_0 ∧ setupState.state ≠ STATE_WAIT_1 ∧
    ((setState STATE_WAIT_0 3 setupState).waitDelayMillis = 43200000 ∧
     (setState STATE_WAIT_1 3 setupState).waitDelayMillis = 43200000) :=
  ⟨by decide, by decide,
    (wait_delays_armed 3 setupState setupState (by decide) (by decide)).2.2.2.2.2⟩

/-! ### C9: `startRx` zero-initializes exactly the active slot -/

/-- C9: `startRx(i)` zeroes exactly the 400 entries of slot `i` (the
`memset` byte count `rxSize * sizeof(rxBuf)` equals the slot size because
pointers and `uint16_t` are both 2 bytes on the target MCU), resets the
capture cursor onto the slot, and touches no memory outside the slot and no
other component of the state. -/
theorem startRx_zeroes (i : Nat) (s : DState) (_hi : i < 2) :
    (∀ j, j < sigCap → (startRx i s).mem (sigBase i + j) = 0) ∧
    (∀ j, j < sigBase i ∨ sigBase i + sigCap ≤ j → (startRx i s).mem j = s.mem j) ∧
    (startRx i s).rxBuf = sigBase i ∧ (startRx i s).rxSize = sigCap ∧
    (startRx i s).startMicros = 0 ∧ (startRx i s).prevRx = HIGH ∧
    (startRx i s).state = s.state ∧ (startRx i s).prevButton = s.prevButton ∧
    (startRx i s).txBuf = s.txBuf ∧ (startRx i s).txLen = s.txLen ∧
    (startRx i s).txHigh = s.txHigh ∧
    (startRx i s).waitStartMillis = s.waitStartMillis ∧
    (startRx i s).waitDelayMillis = s.waitDelayMillis ∧
    (startRx i s).redLed = s.redLed ∧ (startRx i s).greenLed = s.greenLed ∧
    (startRx i s).builtinLed = s.builtinLed := by
  unfold startRx memsetCells sizeofPtr sizeofU16 sigCap at *
  refine ⟨fun j hj => ?_, fun j hj => ?_, rfl, rfl, rfl, rfl, rfl, rfl, rfl, rfl, rfl,
    rfl, rfl, rfl, rfl, rfl⟩
  · simp only []
    rw [if_pos]
    omega
  · simp only []
    rw [if_neg]
    omega

/-- Witness for C9: slot 0 of a concrete state is zeroed, slot 1 untouched. -/
theorem startRx_zeroes_witness :
    (startRx 0 { setupState with mem := fun _ => 7 }).mem (sigBase 0 + 123) = 0 ∧
    (startRx 0 { setupState with mem := fun _ => 7 }).mem 400 =
      ({ setupState with mem := fun _ => 7 } : DState).mem 400 :=
  ⟨(startRx_zeroes 0 _ (by decide)).1 123 (by decide),
   (startRx_zeroes 0 _ (by decide)).2.1 400 (Or.inr (by decide))⟩

/-! ### C10: playback of an all-zero slot -/

/-- Playback started on an all-zero slot: the trim loop leaves `txLen = 0`
and the first poll wraps the 16-bit counter instead of completing. -/
theorem loopTx_allzero (i ms : Nat) (s : DState)
    (hz : ∀ j, j < sigCap → s.mem (sigBase i + j) = 0) :
    (startTx i s).txLen = 0 ∧
    (loopTx ms (startTx i s)).1.txLen = U16 - 1 ∧
    (loopTx ms (startTx i s)).1.txBuf = sigBase i + 1 ∧
    (loopTx ms (startTx i s)).1.state = s.state ∧
    (loopTx ms (startTx i s)).2 = [] := by
  have h0 : trimLen s.mem (sigBase i) sigCap = 0 := trimLen_eq_zero _ _ _ hz
  have hm : s.mem (sigBase i) = 0 := by
    have := hz 0 (by decide)
    simpa using this
  have hTx : startTx i s =
      { s with redLed := HIGH, txBuf := sigBase i, txLen := 0, txHigh := false } := by
    unfold startTx
    rw [h0]
  rw [hTx]
  refine ⟨rfl, ?_, ?_, ?_, ?_⟩ <;>
    · unfold loopTx txStep txActs
      norm_num [U16, hm]

/-- C10: calling `startTx` on a slot whose 400 entries are all zero trims
the remaining-length counter to 0; the first `loopTx` poll then decrements
the 16-bit counter, wrapping it to 65,535, advances the read cursor past
the (empty) trimmed data, emits no carrier action and leaves the state
unchanged; hence a first poll that does advance the state implies the slot
holds at least one non-zero entry. -/
theorem startTx_zero_slot (i ms : Nat) (s u : DState)
    (hz : ∀ j, j < sigCap → s.mem (sigBase i + j) = 0)
    (hu : (loopTx ms (startTx i u)).1.state ≠ u.state) :
    (startTx i s).txLen = 0 ∧
    (loopTx ms (startTx i s)).1.txLen = 65535 ∧
    (loopTx ms (startTx i s)).1.txBuf = sigBase i + 1 ∧
    (loopTx ms (startTx i s)).1.state = s.state ∧
    (loopTx ms (startTx i s)).2 = [] ∧
    (∃ j, j < sigCap ∧ u.mem (sigBase i + j) ≠ 0) := by
  have h := loopTx_allzero i ms s hz
  refine ⟨h.1, by rw [h.2.1]; decide, h.2.2.1, h.2.2.2.1, h.2.2.2.2, ?_⟩
  by_contra hc
  push_neg at hc
  exact hu (loopTx_allzero i ms u fun j hj => hc j hj).2.2.2.1

set_option maxRecDepth 40000 in
/-- Witness for C10: a concrete all-zero slot, and a concrete slot holding
one pulse whose first playback poll does advance the state. -/
theorem startTx_zero_slot_witness :
    (startTx 0 setupState).txLen = 0 ∧
    (loopTx 5 (startTx 0 setupState)).1.txLen = 65535 ∧
    (loopTx 5 (startTx 0 setupState)).1.txBuf = sigBase 0 + 1 ∧
    (loopTx 5 (startTx 0 setupState)).1.state = setupState.state ∧
    (loopTx 5 (startTx 0 setupState)).2 = [] ∧
    (∃ j, j < sigCap ∧
      ({ setupState with state := 4, mem := fun j => if j = 0 then 100 else 0 } : DState).mem
        (sigBase 0 + j) ≠ 0) :=
  startTx_zero_slot 0 5 setupState
    { setupState with state := 4, mem := fun j => if j = 0 then 100 else 0 }
    (fun j hj => rfl)
    (by decide)

/-! ### C6: the button edge detector -/

/-- Iterate `isButtonEvent` over a list of raw button levels, collecting the
returned event flags in order. -/
def buttonTrace (s : DState) : List Nat → List Bool
  | [] => []
  | l :: ls => (isButtonEvent l s).1 :: buttonTrace (isButtonEvent l s).2 ls

/-- Modelled from the claim's wording: an event fires exactly on the poll
where the level first reads `HIGH` after reading `LOW` (`p` is the level
observed before the current poll). -/
def edgeSpec (p : Nat) : List Nat → List Bool
  | [] => []
  | l :: ls => decide (p = LOW ∧ l = HIGH) :: edgeSpec l ls

theorem isButtonEvent_prevButton (b : Nat) (t : DState) :
    ((isButtonEvent b t).2).prevButton = b := by
  unfold isButtonEvent
  split <;> simp_all

theorem buttonTrace_eq_edgeSpec :
    ∀ (ls : List Nat) (s : DState), (s.prevButton = LOW ∨ s.prevButton = HIGH) →
      (∀ l ∈ ls, l = LOW ∨ l = HIGH) →
      buttonTrace s ls = edgeSpec s.prevButton ls := by
  intro ls
  induction ls with
  | nil => intro s _ _; rfl
  | cons l ls ih =>
    intro s hp hl
    have hev : (isButtonEvent l s).1 = decide (s.prevButton = LOW ∧ l = HIGH) := by
      rcases hp with hp | hp <;> rcases hl l (List.mem_cons_self l ls) with h | h <;>
        simp [isButtonEvent, hp, h, HIGH, LOW]
    have hrest : buttonTrace (isButtonEvent l s).2 ls = edgeSpec l ls := by
      have := ih (isButtonEvent l s).2 (by
        rw [isButtonEvent_prevButton]
        exact hl l (List.mem_cons_self l ls))
        (fun x hx => hl x (List.mem_cons_of_mem l hx))
      rwa [isButtonEvent_prevButton] at this
    simp [buttonTrace, edgeSpec, hev, hrest]

/-- C6: over any sequence of (clean, two-valued) button-pin readings,
`isButtonEvent` returns `true` exactly on the polls where the level first
reads `HIGH` after reading `LOW` (so once per press, never on a release,
never while the press is held) and returns `false` on every other poll; and
after every call the stored previous level equals the level just read. -/
theorem button_edge_once_per_press (s : DState) (ls : List Nat)
    (hp : s.prevButton = LOW ∨ s.prevButton = HIGH)
    (hl : ∀ l ∈ ls, l = LOW ∨ l = HIGH) :
    buttonTrace s ls = edgeSpec s.prevButton ls ∧
    ∀ (b : Nat) (t : DState), ((isButtonEvent b t).2).prevButton = b :=
  ⟨buttonTrace_eq_edgeSpec ls s hp hl, isButtonEvent_prevButton⟩

/-- Witness for C6: a press held for two polls, a release, and a second
press yield exactly two events, each on the rising poll. -/
theorem button_edge_once_per_press_witness :
    buttonTrace { setupState with prevButton := LOW } [1, 1, 0, 1, 0] =
      edgeSpec LOW [1, 1, 0, 1, 0] ∧
    buttonTrace { setupState with prevButton := LOW } [1, 1, 0, 1, 0] =
      [true, false, false, true, false] :=
  ⟨(button_edge_once_per_press { setupState with prevButton := LOW } [1, 1, 0, 1, 0]
      (Or.inl rfl) (by decide)).1, by decide⟩

/-! ### C8: `setState` is a no-op on the current state, else one entry action -/

theorem startRx_mem_in (i : Nat) (s : DState) :
    ∀ j, j < sigCap → (startRx i s).mem (sigBase i + j) = 0 := by
  intro j hj
  unfold startRx memsetCells sizeofPtr sizeofU16 sigCap at *
  simp only []
  rw [if_pos]
  omega

theorem startRx_mem_out (i : Nat) (s : DState) :
    ∀ j, j < sigBase i ∨ sigBase i + sigCap ≤ j → (startRx i s).mem j = s.mem j := by
  intro j hj
  unfold startRx memsetCells sizeofPtr sizeofU16 sigCap at *
  simp only []
  rw [if_neg]
  omega

/-- Modelled from the spec's entry-action list (§4.1): the one entry action
performed for each newly entered state; `s` is the pre-transition state,
`r` the post-transition state and `ms` the `millis()` reading. -/
def entryActionSpec (n ms : Nat) (s r : DState) : Prop :=
  (n = STATE_UNINITED → r.redLed = LOW ∧ r.greenLed = LOW) ∧
  (n = STATE_LEARN_0 → r.redLed = HIGH ∧ r.greenLed = LOW ∧ r.rxBuf = sigBase 0 ∧
    r.rxSize = sigCap ∧ r.startMicros = 0 ∧ r.prevRx = HIGH ∧
    (∀ j, j < sigCap → r.mem (sigBase 0 + j) = 0) ∧
    (∀ j, sigBase 0 + sigCap ≤ j → r.mem j = s.mem j)) ∧
  (n = STATE_LEARN_1 → r.redLed = HIGH ∧ r.greenLed = HIGH ∧ r.rxBuf = sigBase 1 ∧
    r.rxSize = sigCap ∧ r.startMicros = 0 ∧ r.prevRx = HIGH ∧
    (∀ j, j < sigCap → r.mem (sigBase 1 + j) = 0) ∧
    (∀ j, j < sigBase 1 ∨ sigBase 1 + sigCap ≤ j → r.mem j = s.mem j)) ∧
  (n = STATE_INITED → r.redLed = LOW ∧ r.greenLed = HIGH) ∧
  (n = STATE_SEND_0 → r.redLed = HIGH ∧ r.txBuf = sigBase 0 ∧
    r.txLen = trimLen s.mem (sigBase 0) sigCap ∧ r.txHigh = false) ∧
  (n = STATE_SEND_1 → r.redLed = HIGH ∧ r.txBuf = sigBase 1 ∧
    r.txLen = trimLen s.mem (sigBase 1) sigCap ∧ r.txHigh = false) ∧
  (n = STATE_WAIT_0 → r.builtinLed = HIGH ∧ r.redLed = LOW ∧
    r.waitStartMillis = ms % U32 ∧ r.waitDelayMillis = kDelay1Millis) ∧
  (n = STATE_WAIT_1 → r.builtinLed = LOW ∧ r.redLed = LOW ∧
    r.waitStartMillis = ms % U32 ∧ r.waitDelayMillis = kCycleMillis - kDelay1Millis)

/-- The components not belonging to state `n`'s entry action are untouched
by a real transition into `n` (so exactly one entry action runs). -/
def entryFrameSpec (n : Nat) (s r : DState) : Prop :=
  r.prevButton = s.prevButton ∧
  (¬(n = STATE_LEARN_0 ∨ n = STATE_LEARN_1) →
    r.mem = s.mem ∧ r.rxBuf = s.rxBuf ∧ r.rxSize = s.rxSize ∧
    r.startMicros = s.startMicros ∧ r.prevRx = s.prevRx) ∧
  (¬(n = STATE_SEND_0 ∨ n = STATE_SEND_1) →
    r.txBuf = s.txBuf ∧ r.txLen = s.txLen ∧ r.txHigh = s.txHigh) ∧
  (¬(n = STATE_WAIT_0 ∨ n = STATE_WAIT_1) →
    r.waitStartMillis = s.waitStartMillis ∧ r.waitDelayMillis = s.waitDelayMillis ∧
    r.builtinLed = s.builtinLed) ∧
  (¬(n = STATE_UNINITED ∨ n = STATE_LEARN_0 ∨ n = STATE_LEARN_1 ∨ n = STATE_INITED) →
    r.greenLed = s.greenLed)

theorem setState_eq_uninit (ms : Nat) (s : DState) (h : (0 : Nat) ≠ s.state) :
    setState 0 ms s =
      { s with state := 0, redLed := LOW, greenLed := LOW } := by
  unfold setState
  rw [if_neg h]
  rfl

theorem setState_eq_learn0 (ms : Nat) (s : DState) (h : (1 : Nat) ≠ s.state) :
    setState 1 ms s =
      startRx 0 { s with state := 1, redLed := HIGH, greenLed := LOW } := by
  unfold setState
  rw [if_neg h]
  norm_num [STATE_UNINITED, STATE_LEARN_0]

theorem setState_eq_learn1 (ms : Nat) (s : DState) (h : (2 : Nat) ≠ s.state) :
    setState 2 ms s =
      startRx 1 { s with state := 2, redLed := HIGH, greenLed := HIGH } := by
  unfold setState
  rw [if_neg h]
  norm_num [STATE_UNINITED, STATE_LEARN_0, STATE_LEARN_1]

theorem setState_eq_inited (ms : Nat) (s : DState) (h : (3 : Nat) ≠ s.state) :
    setState 3 ms s =
      { s with state := 3, redLed := LOW, greenLed := HIGH } := by
  unfold setState
  rw [if_neg h]
  norm_num [STATE_UNINITED, STATE_LEARN_0, STATE_LEARN_1, STATE_INITED]

theorem setState_eq_send0 (ms : Nat) (s : DState) (h : (4 : Nat) ≠ s.state) :
    setState 4 ms s = startTx 0 { s with state := 4 } := by
  unfold setState
  rw [if_neg h]
  norm_num [STATE_UNINITED, STATE_LEARN_0, STATE_LEARN_1, STATE_INITED, STATE_SEND_0]

theorem setState_eq_wait0 (ms : Nat) (s : DState) (h : (5 : Nat) ≠ s.state) :
    setState 5 ms s =
      startWait kDelay1Millis ms { s with state := 5, builtinLed := HIGH } := by
  unfold setState
  rw [if_neg h]
  norm_num [STATE_UNINITED, STATE_LEARN_0, STATE_LEARN_1, STATE_INITED, STATE_SEND_0,
    STATE_WAIT_0]

theorem setState_eq_send1 (ms : Nat) (s : DState) (h : (6 : Nat) ≠ s.state) :
    setState 6 ms s = startTx 1 { s with state := 6 } := by
  unfold setState
  rw [if_neg h]
  norm_num [STATE_UNINITED, STATE_LEARN_0, STATE_LEARN_1, STATE_INITED, STATE_SEND_0,
    STATE_WAIT_0, STATE_SEND_1]

theorem setState_eq_wait1 (ms : Nat) (s : DState) (h : (7 : Nat) ≠ s.state) :
    setState 7 ms s =
      startWait (kCycleMillis - kDelay1Millis) ms
        { s with state := 7, builtinLed := LOW } := by
  unfold setState
  rw [if_neg h]
  norm_num [STATE_UNINITED, STATE_LEARN_0, STATE_LEARN_1, STATE_INITED, STATE_SEND_0,
    STATE_WAIT_0, STATE_SEND_1, STATE_WAIT_1]

theorem setState_eq_other (n ms : Nat) (s : DState) (h : n ≠ s.state) (hn : 8 ≤ n) :
    setState n ms s = { s with state := n } := by
  unfold setState
  rw [if_neg h]
  have h0 : n ≠ STATE_UNINITED := by unfold STATE_UNINITED; omega
  have h1 : n ≠ STATE_LEARN_0 := by unfold STATE_LEARN_0; omega
  have h2 : n ≠ STATE_LEARN_1 := by unfold STATE_LEARN_1; omega
  have h3 : n ≠ STATE_INITED := by unfold STATE_INITED; omega
  have h4 : n ≠ STATE_SEND_0 := by unfold STATE_SEND_0; omega
  have h5 : n ≠ STATE_WAIT_0 := by unfold STATE_WAIT_0; omega
  have h6 : n ≠ STATE_SEND_1 := by unfold STATE_SEND_1; omega
  have h7 : n ≠ STATE_WAIT_1 := by unfold STATE_WAIT_1; omega
  simp [h0, h1, h2, h3, h4, h5, h6, h7]

/-- C8: `setState(n)` with `n` equal to the current state is a complete
no-op (every component, indicator and timer is unchanged); with `n` an
enumerated state different from the current one it sets the current state
to `n` and performs exactly the one entry action of `n`, leaving the
unrelated components unchanged. -/
theorem setState_noop_or_entry (n ms : Nat) (s : DState) (hn : n ≤ 7) :
    (n = s.state → setState n ms s = s) ∧
    (n ≠ s.state →
      (setState n ms s).state = n ∧
      entryActionSpec n ms s (setState n ms s) ∧
      entryFrameSpec n s (setState n ms s)) := by
  constructor
  · intro h
    unfold setState
    rw [if_pos h]
  · intro h
    refine ⟨setState_state n ms s, ?_⟩
    interval_cases n
    · rw [setState_eq_uninit ms s h]
      exact ⟨by simp [entryActionSpec, STATE_UNINITED, STATE_LEARN_0, STATE_LEARN_1,
          STATE_INITED, STATE_SEND_0, STATE_WAIT_0, STATE_SEND_1, STATE_WAIT_1],
        by simp [entryFrameSpec, STATE_LEARN_0, STATE_LEARN_1, STATE_SEND_0, STATE_SEND_1,
          STATE_WAIT_0, STATE_WAIT_1, STATE_UNINITED, STATE_INITED]⟩
    · rw [setState_eq_learn0 ms s h]
      constructor
      · refine ⟨by simp [STATE_UNINITED, STATE_LEARN_0], fun _ => ?_, by simp [STATE_LEARN_1,
          STATE_LEARN_0], by simp [STATE_INITED, STATE_LEARN_0], by simp [STATE_SEND_0,
          STATE_LEARN_0], by simp [STATE_SEND_1, STATE_LEARN_0], by simp [STATE_WAIT_0,
          STATE_LEARN_0], by simp [STATE_WAIT_1, STATE_LEARN_0]⟩
        refine ⟨by simp [startRx], by simp [startRx], by simp [startRx], by simp [startRx],
          by simp [startRx], by simp [startRx], startRx_mem_in 0 _, fun j hj =>
            startRx_mem_out 0 _ j (Or.inr hj)⟩
      · refine ⟨by simp [startRx], fun hx => absurd (Or.inl rfl) hx, by simp [startRx,
          STATE_SEND_0, STATE_SEND_1, STATE_LEARN_0], by simp [startRx, STATE_WAIT_0,
          STATE_WAIT_1, STATE_LEARN_0], fun hx => absurd (Or.inr (Or.inl rfl)) hx⟩
    · rw [setState_eq_learn1 ms s h]
      constructor
      · refine ⟨by simp [STATE_UNINITED, STATE_LEARN_1], by simp [STATE_LEARN_0,
          STATE_LEARN_1], fun _ => ?_, by simp [STATE_INITED, STATE_LEARN_1],
          by simp [STATE_SEND_0, STATE_LEARN_1], by simp [STATE_SEND_1, STATE_LEARN_1],
          by simp [STATE_WAIT_0, STATE_LEARN_1], by simp [STATE_WAIT_1, STATE_LEARN_1]⟩
        refine ⟨by simp [startRx], by simp [startRx], by simp [startRx], by simp [startRx],
          by simp [startRx], by simp [startRx], startRx_mem_in 1 _, startRx_mem_out 1 _⟩
      · refine ⟨by simp [startRx], fun hx => absurd (Or.inr rfl) hx, by simp [startRx,
          STATE_SEND_0, STATE_SEND_1, STATE_LEARN_1], by simp [startRx, STATE_WAIT_0,
          STATE_WAIT_1, STATE_LEARN_1], fun hx => absurd (Or.inr (Or.inr (Or.inl rfl))) hx⟩
    · rw [setState_eq_inited ms s h]
      exact ⟨by simp [entryActionSpec, STATE_UNINITED, STATE_LEARN_0, STATE_LEARN_1,
          STATE_INITED, STATE_SEND_0, STATE_WAIT_0, STATE_SEND_1, STATE_WAIT_1],
        by simp [entryFrameSpec, STATE_LEARN_0, STATE_LEARN_1, STATE_SEND_0, STATE_SEND_1,
          STATE_WAIT_0, STATE_WAIT_1, STATE_UNINITED, STATE_INITED]⟩
    · rw [setState_eq_send0 ms s h]
      exact ⟨by simp [entryActionSpec, startTx, STATE_UNINITED, STATE_LEARN_0, STATE_LEARN_1,
          STATE_INITED, STATE_SEND_0, STATE_WAIT_0, STATE_SEND_1, STATE_WAIT_1, HIGH],
        by simp [entryFrameSpec, startTx, STATE_LEARN_0, STATE_LEARN_1, STATE_SEND_0,
          STATE_SEND_1, STATE_WAIT_0, STATE_WAIT_1, STATE_UNINITED, STATE_INITED]⟩
    · rw [setState_eq_wait0 ms s h]
      exact ⟨by simp [entryActionSpec, startWait, STATE_UNINITED, STATE_LEARN_0,
          STATE_LEARN_1, STATE_INITED, STATE_SEND_0, STATE_WAIT_0, STATE_SEND_1,
          STATE_WAIT_1, HIGH, LOW],
        by simp [entryFrameSpec, startWait, STATE_LEARN_0, STATE_LEARN_1, STATE_SEND_0,
          STATE_SEND_1, STATE_WAIT_0, STATE_WAIT_1, STATE_UNINITED, STATE_INITED]⟩
    · rw [setState_eq_send1 ms s h]
      exact ⟨by simp [entryActionSpec, startTx, STATE_UNINITED, STATE_LEARN_0, STATE_LEARN_1,
          STATE_INITED, STATE_SEND_0, STATE_WAIT_0, STATE_SEND_1, STATE_WAIT_1, HIGH],
        by simp [entryFrameSpec, startTx, STATE_LEARN_0, STATE_LEARN_1, STATE_SEND_0,
          STATE_SEND_1, STATE_WAIT_0, STATE_WAIT_1, STATE_UNINITED, STATE_INITED]⟩
    · rw [setState_eq_wait1 ms s h]
      exact ⟨by simp [entryActionSpec, startWait, STATE_UNINITED, STATE_LEARN_0,
          STATE_LEARN_1, STATE_INITED, STATE_SEND_0, STATE_WAIT_0, STATE_SEND_1,
          STATE_WAIT_1, HIGH, LOW],
        by simp [entryFrameSpec, startWait, STATE_LEARN_0, STATE_LEARN_1, STATE_SEND_0,
          STATE_SEND_1, STATE_WAIT_0, STATE_WAIT_1, STATE_UNINITED, STATE_INITED]⟩

/-- Witness for C8: the no-op case at the reset state; a real transition
into `WAIT_SHORT` arms the timer and keeps the capture cursor. -/
theorem setState_noop_or_entry_witness :
    (setState 0 9 setupState = setupState) ∧
    ((setState STATE_WAIT_0 9 setupState).state = STATE_WAIT_0 ∧
      entryActionSpec STATE_WAIT_0 9 setupState (setState STATE_WAIT_0 9 setupState) ∧
      entryFrameSpec STATE_WAIT_0 setupState (setState STATE_WAIT_0 9 setupState)) :=
  ⟨(setState_noop_or_entry 0 9 setupState (by decide)).1 rfl,
   (setState_noop_or_entry STATE_WAIT_0 9 setupState (by decide)).2 (by decide)⟩

/-! ### C4: the capture-completion condition -/

/-- C4 (amended): on a `loopRx` poll in a learning state, capture is
declared complete — the state advances to the numerically next state
(`LEARN_FIRST` to `LEARN_SECOND`, `LEARN_SECOND` to `READY`) — if and only
if the last-transition timestamp `startMicros` is non-zero (which is how
the code tracks "at least one transition recorded"; it holds exactly when
the last recorded transition was polled at a non-zero `micros()` reading)
and at least 65,536 µs have elapsed since that timestamp; and a timeout
interval with no transition recorded (`startMicros = 0`) and an unchanged
pin level leaves the entire state untouched — the handler keeps polling,
not an error. -/
theorem rx_timeout_advance_iff (inp : Inputs) (s : DState)
    (hs : s.state = STATE_LEARN_0 ∨ s.state = STATE_LEARN_1) :
    ((loopRx inp s).state = s.state + 1 ↔
      s.startMicros ≠ 0 ∧ kRxTimeoutMicros ≤ sub32 (inp.micros % U32) s.startMicros) ∧
    (s.startMicros = 0 → inp.rx = s.prevRx → loopRx inp s = s) := by
  constructor
  · unfold loopRx
    unfold STATE_LEARN_0 STATE_LEARN_1 at hs
    split_ifs with h1 h2 h3
    · rw [setState_state]
      exact iff_of_true (by rcases hs with hs | hs <;> rw [hs] <;> norm_num) h1
    · exact iff_of_false (by omega) h1
    · rw [setState_state]
      exact iff_of_false (by unfold STATE_UNINITED; omega) h1
    · exact iff_of_false (by simp only [rxRecord]; omega) h1
  · intro h0 hrx
    unfold loopRx
    rw [if_neg fun hc => hc.1 h0, if_pos hrx]

/-- A concrete learning-phase state with one transition recorded at 5 µs,
used by the C4 witness. -/
def wRx4 : DState :=
  { setupState with
    state := STATE_LEARN_0
    rxBuf := 1
    rxSize := 399
    prevRx := LOW
    startMicros := 5 }

/-- Witness for C4's amended theorem: with one transition recorded at
`micros() = 5`, a poll at `micros() = 70005` advances `LEARN_FIRST`. -/
theorem rx_timeout_advance_iff_witness :
    (((loopRx ⟨0, 1, 70005, 0⟩ wRx4).state = wRx4.state + 1 ↔
      wRx4.startMicros ≠ 0 ∧ kRxTimeoutMicros ≤ sub32 (70005 % U32) wRx4.startMicros) ∧
    (wRx4.startMicros = 0 → (⟨0, 1, 70005, 0⟩ : Inputs).rx = wRx4.prevRx →
      loopRx ⟨0, 1, 70005, 0⟩ wRx4 = wRx4)) :=
  rx_timeout_advance_iff ⟨0, 1, 70005, 0⟩ wRx4 (Or.inl rfl)

set_option maxRecDepth 40000 in
/-- C4 counterexample, refuting the claim as stated: starting capture in
`LEARN_FIRST`, a transition polled at `micros() = 0` is recorded (`rxSize`
drops from 400 to 399), but it leaves the `startMicros` sentinel at 0, so a
poll 100,000 µs later — far beyond the 65,536 µs inactivity timeout since
the one recorded transition — does not advance the state: capture is not
declared complete although "at least one transition has already been
recorded and the time since the last recorded transition exceeds the
timeout". -/
theorem rx_timeout_claim_counterexample :
    (loopRx ⟨0, LOW, 0, 0⟩ (startRx 0 { setupState with state := STATE_LEARN_0 })).rxSize =
      sigCap - 1 ∧
    (loopRx ⟨0, LOW, 100000, 0⟩
        (loopRx ⟨0, LOW, 0, 0⟩
          (startRx 0 { setupState with state := STATE_LEARN_0 }))).state =
      STATE_LEARN_0 := by
  decide

/-! ### C5: the send/wait cycle -/

theorem isButtonEvent_same (b : Nat) (s : DState) (h : b = s.prevButton) :
    isButtonEvent b s = (false, s) := by
  unfold isButtonEvent
  rw [if_pos h]

theorem isButtonEvent_state (b : Nat) (s : DState) :
    ((isButtonEvent b s).2).state = s.state := by
  unfold isButtonEvent
  split <;> rfl

theorem loopWait_timeout (inp : Inputs) (s : DState) (hb : inp.button = s.prevButton)
    (ht : s.waitDelayMillis < sub32 (inp.millis % U32) s.waitStartMillis) :
    loopWait inp s =
      setState ((s.state + 1) % 2 ^ 8) inp.millis { s with waitStartMillis := 0 } := by
  unfold loopWait
  rw [isButtonEvent_same inp.button s hb]
  simp [ht]

theorem loopWait_state_cases (inp : Inputs) (s : DState) :
    (loopWait inp s).state = STATE_SEND_0 ∨
      (loopWait inp s).state = (s.state + 1) % 2 ^ 8 ∨
      (loopWait inp s).state = s.state := by
  unfold loopWait
  split_ifs with h1 h2
  · exact Or.inl (setState_state _ _ _)
  · refine Or.inr (Or.inl ?_)
    rw [setState_state, isButtonEvent_state]
  · exact Or.inr (Or.inr (isButtonEvent_state _ _))

theorem loopTx_state_cases (ms : Nat) (s : DState) :
    (loopTx ms s).1.state = s.state ∨ (loopTx ms s).1.state = (s.state + 1) % 2 ^ 8 := by
  unfold loopTx
  split_ifs with h
  · refine Or.inr ?_
    rw [setState_state]
    simp [txStep]
  · refine Or.inl ?_
    simp [txStep]

theorem loop_eq_rx (inp : Inputs) (s : DState)
    (h : s.state = STATE_LEARN_0 ∨ s.state = STATE_LEARN_1) :
    loop inp s = (loopRx inp s, []) := by
  unfold loop
  unfold STATE_UNINITED STATE_LEARN_0 STATE_LEARN_1 at *
  rw [if_neg (by omega), if_pos h]

theorem loop_eq_tx (inp : Inputs) (s : DState)
    (h : s.state = STATE_SEND_0 ∨ s.state = STATE_SEND_1) :
    loop inp s = loopTx inp.millis s := by
  unfold loop
  unfold STATE_UNINITED STATE_LEARN_0 STATE_LEARN_1 STATE_INITED STATE_SEND_0
    STATE_SEND_1 at *
  rw [if_neg (by omega), if_neg (by omega), if_neg (by omega), if_pos h]

theorem loop_eq_wait (inp : Inputs) (s : DState)
    (h : s.state = STATE_WAIT_0 ∨ s.state = STATE_WAIT_1) :
    loop inp s = (loopWait inp s, []) := by
  unfold loop
  unfold STATE_UNINITED STATE_LEARN_0 STATE_LEARN_1 STATE_INITED STATE_SEND_0
    STATE_SEND_1 STATE_WAIT_0 STATE_WAIT_1 at *
  rw [if_neg (by omega), if_neg (by omega), if_neg (by omega), if_neg (by omega), if_pos h]

theorem loop_eq_default (inp : Inputs) (s : DState) (h : 8 ≤ s.state) :
    loop inp s = (setState STATE_SEND_0 inp.millis s, []) := by
  unfold loop
  unfold STATE_UNINITED STATE_LEARN_0 STATE_LEARN_1 STATE_INITED STATE_SEND_0
    STATE_SEND_1 STATE_WAIT_0 STATE_WAIT_1 at *
  rw [if_neg (by omega), if_neg (by omega), if_neg (by omega), if_neg (by omega),
    if_neg (by omega)]

/-- C5: after the armed delay elapses with no button press, `WAIT_SHORT`
advances directly to `SEND_SECOND`; `WAIT_LONG` advances to the transient
non-enumerated value 8, from which the very next `loop` poll lands on
`SEND_FIRST` (the `default` branch); the five values
`{SEND_FIRST, WAIT_SHORT, SEND_SECOND, WAIT_LONG, 8}` are closed under
polling, and any non-enumerated state value is sent to `SEND_FIRST` by one
poll, so the controller cycles forever and never sticks outside the
enumeration. -/
theorem wait_cycle (inpA inpB inpC inpD inpE : Inputs) (sA sB sC sD : DState)
    (hA : sA.state = STATE_WAIT_0) (hbA : inpA.button = sA.prevButton)
    (htA : sA.waitDelayMillis < sub32 (inpA.millis % U32) sA.waitStartMillis)
    (hB : sB.state = STATE_WAIT_1) (hbB : inpB.button = sB.prevButton)
    (htB : sB.waitDelayMillis < sub32 (inpB.millis % U32) sB.waitStartMillis)
    (hC : sC.state = 4 ∨ sC.state = 5 ∨ sC.state = 6 ∨ sC.state = 7 ∨ sC.state = 8)
    (hD : 8 ≤ sD.state) :
    (loopWait inpA sA).state = STATE_SEND_1 ∧
    (loopWait inpB sB).state = 8 ∧
    (loop inpE (loopWait inpB sB)).1.state = STATE_SEND_0 ∧
    ((loop inpC sC).1.state = 4 ∨ (loop inpC sC).1.state = 5 ∨ (loop inpC sC).1.state = 6 ∨
      (loop inpC sC).1.state = 7 ∨ (loop inpC sC).1.state = 8) ∧
    (loop inpD sD).1.state = STATE_SEND_0 := by
  have h8 : (loopWait inpB sB).state = 8 := by
    rw [loopWait_timeout inpB sB hbB htB, setState_state, hB]
    decide
  refine ⟨?_, h8, ?_, ?_, ?_⟩
  · rw [loopWait_timeout inpA sA hbA htA, setState_state, hA]
    decide
  · rw [loop_eq_default inpE _ (by omega), setState_state]
  · rcases hC with h | h | h | h | h
    · rw [loop_eq_tx inpC sC (Or.inl (by rw [h]; rfl))]
      rcases loopTx_state_cases inpC.millis sC with hx | hx <;> rw [hx, h] <;> norm_num
    · rw [loop_eq_wait inpC sC (Or.inl (by rw [h]; rfl))]
      rcases loopWait_state_cases inpC sC with hx | hx | hx <;> rw [hx] <;>
        simp [h, STATE_SEND_0]
    · rw [loop_eq_tx inpC sC (Or.inr (by rw [h]; rfl))]
      rcases loopTx_state_cases inpC.millis sC with hx | hx <;> rw [hx, h] <;> norm_num
    · rw [loop_eq_wait inpC sC (Or.inr (by rw [h]; rfl))]
      rcases loopWait_state_cases inpC sC with hx | hx | hx <;> rw [hx] <;>
        simp [h, STATE_SEND_0]
    · rw [loop_eq_default inpC sC (by omega), setState_state]
      norm_num [STATE_SEND_0]
  · rw [loop_eq_default inpD sD hD, setState_state]

/-- A concrete `WAIT_SHORT` state with an expired 10 ms delay, for the C5
witness. -/
def wWait0 : DState :=
  { setupState with state := STATE_WAIT_0, waitStartMillis := 0, waitDelayMillis := 10 }

/-- A concrete `WAIT_LONG` state with an expired 10 ms delay, for the C5
witness. -/
def wWait1 : DState :=
  { setupState with state := STATE_WAIT_1, waitStartMillis := 0, waitDelayMillis := 10 }

/-- Witness for C5 at concrete states and polls. -/
theorem wait_cycle_witness :
    (loopWait ⟨1, 0, 0, 20⟩ wWait0).state = STATE_SEND_1 ∧
    (loopWait ⟨1, 0, 0, 20⟩ wWait1).state = 8 ∧
    (loop ⟨1, 0, 0, 30⟩ (loopWait ⟨1, 0, 0, 20⟩ wWait1)).1.state = STATE_SEND_0 ∧
    ((loop ⟨1, 0, 0, 30⟩ wWait0).1.state = 4 ∨ (loop ⟨1, 0, 0, 30⟩ wWait0).1.state = 5 ∨
      (loop ⟨1, 0, 0, 30⟩ wWait0).1.state = 6 ∨ (loop ⟨1, 0, 0, 30⟩ wWait0).1.state = 7 ∨
      (loop ⟨1, 0, 0, 30⟩ wWait0).1.state = 8) ∧
    (loop ⟨1, 0, 0, 30⟩ { setupState with state := 9 }).1.state = STATE_SEND_0 :=
  wait_cycle ⟨1, 0, 0, 20⟩ ⟨1, 0, 0, 20⟩ ⟨1, 0, 0, 30⟩ ⟨1, 0, 0, 30⟩ ⟨1, 0, 0, 30⟩
    wWait0 wWait1 wWait0 { setupState with state := 9 }
    rfl rfl (by decide) rfl rfl (by decide) (Or.inr (Or.inl rfl)) (by decide)

/-! ### C1: playback round-trip fidelity -/

/-- Predicted carrier actions of playback poll `k` (0-based into the slot):
nothing for a zero entry; otherwise carrier-off for even `k`, carrier-on
for odd `k`, then a delay of the stored duration. -/
def pollActs (m : Nat → Nat) (base k : Nat) : List TxAct :=
  if m (base + k) = 0 then []
  else [if k % 2 = 1 then TxAct.tone kCarrierFreq else TxAct.noTone,
    TxAct.delayMicros (m (base + k))]

/-- Predicted concatenated carrier actions of `c` consecutive playback
polls starting at poll `k`. -/
def txTrace (m : Nat → Nat) (base : Nat) : Nat → Nat → List TxAct
  | _, 0 => []
  | k, c + 1 => pollActs m base k ++ txTrace m base (k + 1) c

theorem txTrace_zero (m : Nat → Nat) (base k : Nat) : txTrace m base k 0 = [] := rfl

theorem txTrace_succ (m : Nat → Nat) (base k c : Nat) :
    txTrace m base k (c + 1) = pollActs m base k ++ txTrace m base (k + 1) c := rfl

theorem txActs_eq_pollActs (m : Nat → Nat) (base k : Nat) (s : DState)
    (hm : s.mem = m) (hbuf : s.txBuf = base + k) (hhigh : s.txHigh = (k % 2 == 1)) :
    txActs s = pollActs m base k := by
  unfold txActs pollActs
  rw [hm, hbuf, hhigh]
  by_cases hz : m (base + k) = 0
  · simp [hz]
  · rcases Nat.mod_two_eq_zero_or_one k with h | h <;> simp [hz, h]

theorem bool_parity_flip (k : Nat) : (!(k % 2 == 1)) = ((k + 1) % 2 == 1) := by
  rcases Nat.mod_two_eq_zero_or_one k with h | h <;>
    rw [Nat.add_mod, h] <;> rfl

theorem txStep_fields (s : DState) :
    (txStep s).mem = s.mem ∧ (txStep s).state = s.state ∧
    (txStep s).txBuf = s.txBuf + 1 ∧ (txStep s).txLen = (s.txLen + (U16 - 1)) % U16 ∧
    (txStep s).txHigh = !s.txHigh :=
  ⟨rfl, rfl, rfl, rfl, rfl⟩

theorem runTx_go (m : Nat → Nat) (base N ms : Nat) (hN16 : N < U16) :
    ∀ c k (s : DState), k + c = N → 1 ≤ c → s.mem = m → s.txBuf = base + k →
      s.txLen = N - k → s.txHigh = (k % 2 == 1) →
      (runTx ms c s).2 = txTrace m base k c ++ [TxAct.noTone] ∧
      (runTx ms c s).1.state = (s.state + 1) % 2 ^ 8 := by
  intro c
  induction c with
  | zero => omega
  | succ c ih =>
    intro k s hk hc hm hbuf hlen hhigh
    by_cases hc0 : c = 0
    · subst hc0
      have hone : N - k = 1 := by omega
      have hstep : (txStep s).txLen = 0 := by
        rw [(txStep_fields s).2.2.2.1, hlen, hone]
        unfold U16
        norm_num
      have hloop : loopTx ms s =
          (setState (((txStep s).state + 1) % 2 ^ 8) ms { txStep s with txBuf := nullIdx },
            txActs s ++ [TxAct.noTone]) := by
        unfold loopTx
        rw [if_pos hstep]
      simp only [runTx, hloop]
      constructor
      · rw [List.append_nil, txActs_eq_pollActs m base k s hm hbuf hhigh,
          txTrace_succ, txTrace_zero, List.append_nil]
      · rw [setState_state]
        rfl
    · have hlen1 : (txStep s).txLen = N - (k + 1) := by
        rw [(txStep_fields s).2.2.2.1, hlen]
        have := dec16 (N - k) (by omega) (by omega)
        rw [this]
        omega
      have hstep : (txStep s).txLen ≠ 0 := by
        rw [hlen1]
        omega
      have hloop : loopTx ms s = (txStep s, txActs s) := by
        unfold loopTx
        rw [if_neg hstep]
      have hrec := ih (k + 1) (txStep s) (by omega) (by omega)
        ((txStep_fields s).1.trans hm)
        (by rw [(txStep_fields s).2.2.1, hbuf, Nat.add_assoc])
        hlen1
        (by rw [(txStep_fields s).2.2.2.2, hhigh, bool_parity_flip])
      simp only [runTx, hloop]
      constructor
      · rw [hrec.1, txActs_eq_pollActs m base k s hm hbuf hhigh, txTrace_succ,
          List.append_assoc]
      · rw [hrec.2, (txStep_fields s).2.1]

/-- C1: running playback — `startTx(i)` followed by one `loopTx` poll per
remaining entry — emits exactly the stored duration sequence with
alternating polarity, zero entries emitting nothing: with the slot trimmed
of trailing zeros to length `N` (and `N ≥ 1`), the emitted action trace
over the `N` polls is, for each poll `k < N`, carrier-off for even `k` /
carrier-on for odd `k` followed by a delay of `slot[k]` microseconds
whenever `slot[k] ≠ 0` (and nothing when `slot[k] = 0`, zero entries being
skipped), followed by the final forced carrier-off; after poll `N - 1` the
state advances to the numerically next state. -/
theorem playback_roundtrip (i ms : Nat) (s : DState)
    (hN : 1 ≤ trimLen s.mem (sigBase i) sigCap) :
    (runTx ms (trimLen s.mem (sigBase i) sigCap) (startTx i s)).2 =
      txTrace s.mem (sigBase i) 0 (trimLen s.mem (sigBase i) sigCap) ++ [TxAct.noTone] ∧
    (runTx ms (trimLen s.mem (sigBase i) sigCap) (startTx i s)).1.state =
      (s.state + 1) % 2 ^ 8 := by
  have hle : trimLen s.mem (sigBase i) sigCap ≤ sigCap := trimLen_le _ _ _
  have h := runTx_go s.mem (sigBase i) (trimLen s.mem (sigBase i) sigCap) ms
    (by unfold U16 sigCap at *; omega)
    (trimLen s.mem (sigBase i) sigCap) 0 (startTx i s)
    (by omega) hN rfl (by simp [startTx]) (by simp [startTx]) rfl
  exact ⟨h.1, h.2⟩

/-- A two-pulse slot-0 memory (100 µs space, 200 µs mark), for the C1
witness. -/
def wMem1 : Nat → Nat := fun j => if j = 0 then 100 else if j = 1 then 200 else 0

/-- A ready-to-send state holding `wMem1`, for the C1 witness. -/
def wSend1 : DState := { setupState with state := STATE_SEND_0, mem := wMem1 }

set_option maxRecDepth 100000 in
/-- Witness for C1: the slot `[100, 200, 0, …]` trims to `N = 2` and plays
back as carrier-off / 100 µs, carrier-on / 200 µs, final carrier-off, with
the state advancing to `WAIT_SHORT`. -/
theorem playback_roundtrip_witness :
    1 ≤ trimLen wSend1.mem (sigBase 0) sigCap ∧
    ((runTx 77 (trimLen wSend1.mem (sigBase 0) sigCap) (startTx 0 wSend1)).2 =
        txTrace wSend1.mem (sigBase 0) 0 (trimLen wSend1.mem (sigBase 0) sigCap) ++
          [TxAct.noTone] ∧
      (runTx 77 (trimLen wSend1.mem (sigBase 0) sigCap) (startTx 0 wSend1)).1.state =
        (wSend1.state + 1) % 2 ^ 8) :=
  ⟨by decide, playback_roundtrip 0 77 wSend1 (by decide)⟩

/-! ### C2: what capture stores -/

/-- One receive poll per transition time, pin levels alternating starting
from `l` (the button is held at `LOW` and `millis` pinned to 0; `loopRx`
reads neither). -/
def rxPolls : Nat → List Nat → List Inputs
  | _, [] => []
  | l, t :: ts => ⟨LOW, l, t, 0⟩ :: rxPolls (1 - l) ts

/-- Successive differences of a list of times against the previous time
`p` — exactly the values `now - startMicros` that `loopRx` records. -/
def diffs : Nat → List Nat → List Nat
  | _, [] => []
  | p, t :: ts => (t - p) :: diffs t ts

/-- Write a list of values, truncated to 16 bits, at consecutive cells
starting at `i`. -/
def writeList : (Nat → Nat) → Nat → List Nat → Nat → Nat
  | m, _, [] => m
  | m, i, v :: vs => writeList (Function.update m i (v % U16)) (i + 1) vs

/-- Admissible transition times after previous recorded time `p`: strictly
increasing, below `2^32`, and (except against the cleared timestamp
`p = 0`) within the inactivity timeout of the predecessor. -/
def gapsOk : Nat → List Nat → Bool
  | _, [] => true
  | p, t :: ts =>
    decide (p < t) && decide (t < U32) &&
      (decide (p = 0) || decide (t - p < kRxTimeoutMicros)) && gapsOk t ts

theorem diffs_length (p : Nat) (ts : List Nat) : (diffs p ts).length = ts.length := by
  induction ts generalizing p with
  | nil => rfl
  | cons t ts ih => simp [diffs, ih]

theorem writeList_frame :
    ∀ (vs : List Nat) (m : Nat → Nat) (i j : Nat), j < i ∨ i + vs.length ≤ j →
      writeList m i vs j = m j := by
  intro vs
  induction vs with
  | nil => intro m i j _; rfl
  | cons v vs ih =>
    intro m i j hj
    have h1 : writeList m i (v :: vs) j =
        writeList (Function.update m i (v % U16)) (i + 1) vs j := rfl
    rw [h1, ih _ (i + 1) j (by simp at hj; omega)]
    rw [Function.update_apply, if_neg (by simp at hj; omega)]

theorem writeList_lookup :
    ∀ (vs : List Nat) (m : Nat → Nat) (i j : Nat), j < vs.length →
      writeList m i vs (i + j) = vs.getD j 0 % U16 := by
  intro vs
  induction vs with
  | nil => intro m i j hj; simp at hj
  | cons v vs ih =>
    intro m i j hj
    have h1 : writeList m i (v :: vs) (i + j) =
        writeList (Function.update m i (v % U16)) (i + 1) vs (i + j) := rfl
    rw [h1]
    match j with
    | 0 =>
      rw [writeList_frame vs _ (i + 1) (i + 0) (by omega)]
      simp [Function.update_apply]
    | j + 1 =>
      have h2 : i + (j + 1) = (i + 1) + j := by omega
      rw [h2, ih _ (i + 1) j (by simp at hj; omega)]
      rfl

theorem gapsOk_le_getLastD :
    ∀ (ts : List Nat) (p : Nat), gapsOk p ts = true → p ≤ ts.getLastD p := by
  intro ts
  induction ts with
  | nil => intro p _; exact Nat.le_refl p
  | cons t ts ih =>
    intro p hp
    simp only [gapsOk, Bool.and_eq_true, Bool.or_eq_true, decide_eq_true_eq] at hp
    rw [List.getLastD_cons]
    exact Nat.le_trans (Nat.le_of_lt hp.1.1.1) (ih t hp.2)

theorem gapsOk_getLastD_lt :
    ∀ (ts : List Nat) (p : Nat), gapsOk p ts = true → p < U32 → ts.getLastD p < U32 := by
  intro ts
  induction ts with
  | nil => intro p _ hp; exact hp
  | cons t ts ih =>
    intro p hp hlt
    simp only [gapsOk, Bool.and_eq_true, Bool.or_eq_true, decide_eq_true_eq] at hp
    rw [List.getLastD_cons]
    exact ih t hp.2 hp.1.1.2

theorem rxRecord_fields (rx now : Nat) (s : DState) :
    (rxRecord rx now s).mem = Function.update s.mem s.rxBuf (sub32 now s.startMicros % U16) ∧
    (rxRecord rx now s).rxBuf = s.rxBuf + 1 ∧
    (rxRecord rx now s).rxSize = (s.rxSize + (U16 - 1)) % U16 ∧
    (rxRecord rx now s).startMicros = now ∧
    (rxRecord rx now s).prevRx = rx ∧
    (rxRecord rx now s).state = s.state ∧
    (rxRecord rx now s).prevButton = s.prevButton :=
  ⟨rfl, rfl, rfl, rfl, rfl, rfl, rfl⟩

theorem loopRx_record (inp : Inputs) (s : DState)
    (hnot : ¬(s.startMicros ≠ 0 ∧ kRxTimeoutMicros ≤ sub32 (inp.micros % U32) s.startMicros))
    (hchg : inp.rx ≠ s.prevRx)
    (hsz : (rxRecord inp.rx (inp.micros % U32) s).rxSize ≠ 0) :
    loopRx inp s = rxRecord inp.rx (inp.micros % U32) s := by
  unfold loopRx
  rw [if_neg hnot, if_neg hchg, if_neg hsz]

theorem runRx_cons (inp : Inputs) (ps : List Inputs) (s : DState) :
    runRx (inp :: ps) s = runRx ps (loopRx inp s) := rfl

theorem runRx_append (a b : List Inputs) (s : DState) :
    runRx (a ++ b) s = runRx b (runRx a s) := by
  simp [runRx, List.foldl_append]

theorem runRx_go :
    ∀ (ts : List Nat) (l : Nat) (s : DState), gapsOk s.startMicros ts = true → l ≤ 1 →
      s.prevRx = 1 - l → s.startMicros < U32 → ts.length < s.rxSize → s.rxSize < U16 →
      (runRx (rxPolls l ts) s).mem = writeList s.mem s.rxBuf (diffs s.startMicros ts) ∧
      (runRx (rxPolls l ts) s).rxBuf = s.rxBuf + ts.length ∧
      (runRx (rxPolls l ts) s).rxSize = s.rxSize - ts.length ∧
      (runRx (rxPolls l ts) s).startMicros = ts.getLastD s.startMicros ∧
      (runRx (rxPolls l ts) s).state = s.state ∧
      (runRx (rxPolls l ts) s).prevButton = s.prevButton := by
  intro ts
  induction ts with
  | nil =>
    intro l s _ _ _ _ _ _
    exact ⟨rfl, rfl, (Nat.sub_zero _).symm ▸ rfl, rfl, rfl, rfl⟩
  | cons t ts ih =>
    intro l s hg hl hprev hp hsz hsz16
    simp only [gapsOk, Bool.and_eq_true, Bool.or_eq_true, decide_eq_true_eq] at hg
    obtain ⟨⟨⟨hpt, htU⟩, hgap⟩, htail⟩ := hg
    have hcnt : ts.length + 1 < s.rxSize := by
      simpa using hsz
    have hnow : t % U32 = t := Nat.mod_eq_of_lt htU
    have hsub : sub32 (t % U32) s.startMicros = t - s.startMicros := by
      rw [hnow]
      exact sub32_eq_sub _ _ (Nat.le_of_lt hpt) htU
    have hnot : ¬(s.startMicros ≠ 0 ∧
        kRxTimeoutMicros ≤ sub32 (t % U32) s.startMicros) := by
      rcases hgap with h0 | hlt
      · exact fun hc => hc.1 h0
      · rw [hsub]
        intro hc
        omega
    have hchg : l ≠ s.prevRx := by
      rw [hprev]
      omega
    have hrsz : (s.rxSize + (U16 - 1)) % U16 = s.rxSize - 1 :=
      dec16 _ (by omega) hsz16
    have hstep : loopRx ⟨LOW, l, t, 0⟩ s = rxRecord l (t % U32) s :=
      loopRx_record ⟨LOW, l, t, 0⟩ s hnot hchg
        (by rw [(rxRecord_fields _ _ _).2.2.1, hrsz]; omega)
    have hrun : runRx (rxPolls l (t :: ts)) s =
        runRx (rxPolls (1 - l) ts) (rxRecord l (t % U32) s) := by
      rw [show rxPolls l (t :: ts) = ⟨LOW, l, t, 0⟩ :: rxPolls (1 - l) ts from rfl,
        runRx_cons, hstep]
    have hrec := ih (1 - l) (rxRecord l (t % U32) s)
      (by rw [(rxRecord_fields _ _ _).2.2.2.1, hnow]; exact htail)
      (by omega)
      (by rw [(rxRecord_fields _ _ _).2.2.2.2.1]; omega)
      (by rw [(rxRecord_fields _ _ _).2.2.2.1, hnow]; exact htU)
      (by rw [(rxRecord_fields _ _ _).2.2.1, hrsz]; omega)
      (by rw [(rxRecord_fields _ _ _).2.2.1, hrsz]; omega)
    rw [hrun]
    obtain ⟨hmem, hbuf, hsize, hstart, hstate, hbtn⟩ := hrec
    refine ⟨?_, ?_, ?_, ?_, ?_, ?_⟩
    · rw [hmem, (rxRecord_fields _ _ _).1, (rxRecord_fields _ _ _).2.1,
        (rxRecord_fields _ _ _).2.2.2.1, hsub, hnow]
      rfl
    · rw [hbuf, (rxRecord_fields _ _ _).2.1]
      simp
      omega
    · rw [hsize, (rxRecord_fields _ _ _).2.2.1, hrsz]
      simp
      omega
    · rw [hstart, (rxRecord_fields _ _ _).2.2.2.1, hnow, List.getLastD_cons]
    · rw [hstate, (rxRecord_fields _ _ _).2.2.2.2.2.1]
    · rw [hbtn, (rxRecord_fields _ _ _).2.2.2.2.2.2]

theorem loopRx_timeout (inp : Inputs) (s : DState)
    (h : s.startMicros ≠ 0 ∧ kRxTimeoutMicros ≤ sub32 (inp.micros % U32) s.startMicros) :
    loopRx inp s = setState ((s.state + 1) % 2 ^ 8) inp.millis s := by
  unfold loopRx
  rw [if_pos h]

/-- C2 (amended): for transitions polled at times `t0 < t1 < … < tn` (with
`t0 > 0`, consecutive gaps below the 65,536 µs timeout, and `n + 1 ≤ 399`)
followed by a silence poll at least 65,536 µs after `tn`, capture stores
exactly `n + 1` values — not `n`: entry 0 is `t0 - 0 = t0` itself truncated
to 16 bits (the absolute time of the first transition, because
`startMicros` is initialized to 0), and entry `i ≥ 1` is `tᵢ - tᵢ₋₁` — then
advances the state (`LEARN_FIRST` to `LEARN_SECOND`, or `LEARN_SECOND` to
`READY`), with every entry beyond index `n` still zero. -/
theorem capture_stores_n_plus_one (k ms lv T : Nat) (s0 : DState) (t0 : Nat) (ts : List Nat)
    (hk : k = STATE_LEARN_0 ∨ k = STATE_LEARN_1) (hst : s0.state = k)
    (hgaps : gapsOk 0 (t0 :: ts) = true)
    (hlen : ts.length + 1 ≤ sigCap - 1)
    (hT : T < U32) (hTo : (t0 :: ts).getLastD 0 + kRxTimeoutMicros ≤ T) :
    (runRx (rxPolls LOW (t0 :: ts) ++ [⟨LOW, lv, T, ms⟩]) (startRx (k - 1) s0)).state =
      k + 1 ∧
    (∀ j, j < ts.length + 1 →
      (runRx (rxPolls LOW (t0 :: ts) ++ [⟨LOW, lv, T, ms⟩]) (startRx (k - 1) s0)).mem
          (sigBase (k - 1) + j) = (diffs 0 (t0 :: ts)).getD j 0 % U16) ∧
    (∀ j, ts.length + 1 ≤ j → j < sigCap →
      (runRx (rxPolls LOW (t0 :: ts) ++ [⟨LOW, lv, T, ms⟩]) (startRx (k - 1) s0)).mem
          (sigBase (k - 1) + j) = 0) := by
  have hcap : sigCap = 400 := rfl
  have hgo := runRx_go (t0 :: ts) LOW (startRx (k - 1) s0)
    hgaps (by decide) rfl (by norm_num [startRx, U32])
    (by show ts.length + 1 < sigCap; omega)
    (by show sigCap < U16; decide)
  have hsm : (startRx (k - 1) s0).startMicros = 0 := rfl
  have hrb : (startRx (k - 1) s0).rxBuf = sigBase (k - 1) := rfl
  have hss : (startRx (k - 1) s0).state = k := hst
  rw [hsm, hrb] at hgo
  obtain ⟨hmem, hbuf, hsize, hstart, hstate, hbtn⟩ := hgo
  rw [hss] at hstate
  have hg2 := hgaps
  simp only [gapsOk, Bool.and_eq_true, Bool.or_eq_true, decide_eq_true_eq] at hg2
  obtain ⟨⟨⟨hpt, htU⟩, _⟩, htail⟩ := hg2
  have htn0 : 0 < (t0 :: ts).getLastD 0 := by
    rw [List.getLastD_cons]
    exact Nat.lt_of_lt_of_le hpt (gapsOk_le_getLastD ts t0 htail)
  have htnU : (t0 :: ts).getLastD 0 < U32 := by
    rw [List.getLastD_cons]
    exact gapsOk_getLastD_lt ts t0 htail htU
  have hsubT : sub32 (T % U32) ((t0 :: ts).getLastD 0) = T - (t0 :: ts).getLastD 0 := by
    rw [Nat.mod_eq_of_lt hT]
    exact sub32_eq_sub _ _ (by omega) hT
  have hsplit : runRx (rxPolls LOW (t0 :: ts) ++ [⟨LOW, lv, T, ms⟩]) (startRx (k - 1) s0) =
      loopRx ⟨LOW, lv, T, ms⟩ (runRx (rxPolls LOW (t0 :: ts)) (startRx (k - 1) s0)) := by
    rw [runRx_append]
    rfl
  have hfin : loopRx ⟨LOW, lv, T, ms⟩ (runRx (rxPolls LOW (t0 :: ts)) (startRx (k - 1) s0)) =
      setState (((runRx (rxPolls LOW (t0 :: ts)) (startRx (k - 1) s0)).state + 1) % 2 ^ 8)
        ms (runRx (rxPolls LOW (t0 :: ts)) (startRx (k - 1) s0)) := by
    refine loopRx_timeout _ _ ⟨?_, ?_⟩
    · rw [hstart]
      omega
    · rw [hstart]
      show kRxTimeoutMicros ≤ sub32 (T % U32) ((t0 :: ts).getLastD 0)
      rw [hsubT]
      omega
  rw [hsplit, hfin, hstate]
  rcases hk with hk1 | hk1
  · have h2 : (k + 1) % 2 ^ 8 = 2 := by
      rw [hk1]
      decide
    rw [h2, setState_eq_learn1 ms _ (by rw [hstate, hk1]; decide)]
    have hj4 : ∀ j, j < sigCap →
        sigBase (k - 1) + j < sigBase 1 ∨ sigBase 1 + sigCap ≤ sigBase (k - 1) + j := by
      intro j hj
      left
      rw [hk1]
      show sigBase 0 + j < sigBase 1
      unfold sigBase sigCap at *
      omega
    refine ⟨?_, ?_, ?_⟩
    · rw [hk1]
      rfl
    · intro j hj
      rw [startRx_mem_out 1 _ _ (hj4 j (by omega))]
      show (runRx (rxPolls LOW (t0 :: ts)) (startRx (k - 1) s0)).mem (sigBase (k - 1) + j) =
        (diffs 0 (t0 :: ts)).getD j 0 % U16
      rw [hmem, writeList_lookup _ _ _ j (by rw [diffs_length]; simpa using hj)]
    · intro j hj1 hj2
      rw [startRx_mem_out 1 _ _ (hj4 j hj2)]
      show (runRx (rxPolls LOW (t0 :: ts)) (startRx (k - 1) s0)).mem (sigBase (k - 1) + j) = 0
      rw [hmem, writeList_frame _ _ _ _ (Or.inr (by rw [diffs_length]; simp; omega))]
      exact startRx_mem_in (k - 1) s0 j hj2
  · have h2 : (k + 1) % 2 ^ 8 = 3 := by
      rw [hk1]
      decide
    rw [h2, setState_eq_inited ms _ (by rw [hstate, hk1]; decide)]
    refine ⟨?_, ?_, ?_⟩
    · rw [hk1]
      rfl
    · intro j hj
      show (runRx (rxPolls LOW (t0 :: ts)) (startRx (k - 1) s0)).mem (sigBase (k - 1) + j) =
        (diffs 0 (t0 :: ts)).getD j 0 % U16
      rw [hmem, writeList_lookup _ _ _ j (by rw [diffs_length]; simpa using hj)]
    · intro j hj1 hj2
      show (runRx (rxPolls LOW (t0 :: ts)) (startRx (k - 1) s0)).mem (sigBase (k - 1) + j) = 0
      rw [hmem, writeList_frame _ _ _ _ (Or.inr (by rw [diffs_length]; simp; omega))]
      exact startRx_mem_in (k - 1) s0 j hj2

/-- A `LEARN_SECOND` state about to capture into slot 1, for the C2
counterexample and witness. -/
def wCap : DState := { setupState with state := STATE_LEARN_1 }

set_option maxRecDepth 40000 in
/-- C2 counterexample, refuting the claim as stated: with transitions at
`t0 = 1000` and `t1 = 2500` (so `n = 1`) followed by silence at 70,000 µs,
the claim says exactly one duration value, `t1 - t0 = 1500`, is stored; the
code instead stores two values — entry 0 is `1000` (the absolute time of
the first transition, not a difference) and entry 1 is `1500` — and the
capture cursor has consumed two cells (`rxSize = 398`). -/
theorem capture_count_counterexample :
    (runRx [⟨0, 0, 1000, 0⟩, ⟨0, 1, 2500, 0⟩, ⟨0, 1, 70000, 0⟩] (startRx 1 wCap)).state =
      STATE_INITED ∧
    (runRx [⟨0, 0, 1000, 0⟩, ⟨0, 1, 2500, 0⟩, ⟨0, 1, 70000, 0⟩]
        (startRx 1 wCap)).mem (sigBase 1) = 1000 ∧
    (runRx [⟨0, 0, 1000, 0⟩, ⟨0, 1, 2500, 0⟩, ⟨0, 1, 70000, 0⟩]
        (startRx 1 wCap)).mem (sigBase 1 + 1) = 1500 ∧
    (runRx [⟨0, 0, 1000, 0⟩, ⟨0, 1, 2500, 0⟩, ⟨0, 1, 70000, 0⟩]
        (startRx 1 wCap)).rxSize = 398 := by
  decide

/-- Witness for C2's amended theorem: two transitions at 1000 µs and
2500 µs into slot 1, silence poll at 70,000 µs; entries 0 and 1 hold
1000 and 1500, entry 5 is still zero, and the state advanced to `READY`. -/
theorem capture_stores_n_plus_one_witness :
    (runRx (rxPolls LOW (1000 :: [2500]) ++ [⟨LOW, 1, 70000, 3⟩])
        (startRx (STATE_LEARN_1 - 1) wCap)).state = STATE_LEARN_1 + 1 ∧
    (runRx (rxPolls LOW (1000 :: [2500]) ++ [⟨LOW, 1, 70000, 3⟩])
        (startRx (STATE_LEARN_1 - 1) wCap)).mem (sigBase (STATE_LEARN_1 - 1) + 0) =
      (diffs 0 (1000 :: [2500])).getD 0 0 % U16 ∧
    (runRx (rxPolls LOW (1000 :: [2500]) ++ [⟨LOW, 1, 70000, 3⟩])
        (startRx (STATE_LEARN_1 - 1) wCap)).mem (sigBase (STATE_LEARN_1 - 1) + 1) =
      (diffs 0 (1000 :: [2500])).getD 1 0 % U16 ∧
    (runRx (rxPolls LOW (1000 :: [2500]) ++ [⟨LOW, 1, 70000, 3⟩])
        (startRx (STATE_LEARN_1 - 1) wCap)).mem (sigBase (STATE_LEARN_1 - 1) + 5) = 0 := by
  have h := capture_stores_n_plus_one STATE_LEARN_1 3 1 70000 wCap 1000 [2500]
    (Or.inr rfl) rfl (by decide) (by decide) (by decide) (by decide)
  exact ⟨h.1, h.2.1 0 (by decide), h.2.1 1 (by decide), h.2.2 5 (by decide) (by decide)⟩

/-! ### C3: capture stays inside the active slot; overflow resets -/

/-- The capture-cursor shape invariant of the two learning states: at least
one free entry, capacity at most 400, and the write pointer sitting
`400 - rxSize` entries into the active slot. -/
def RxInv (s : DState) : Prop :=
  (s.state = STATE_LEARN_0 →
    1 ≤ s.rxSize ∧ s.rxSize ≤ sigCap ∧ s.rxBuf + s.rxSize = sigBase 0 + sigCap) ∧
  (s.state = STATE_LEARN_1 →
    1 ≤ s.rxSize ∧ s.rxSize ≤ sigCap ∧ s.rxBuf + s.rxSize = sigBase 1 + sigCap)

instance (s : DState) : Decidable (RxInv s) := by
  unfold RxInv
  infer_instance

theorem rxInv_of_state (s : DState)
    (h : s.state ≠ STATE_LEARN_0 ∧ s.state ≠ STATE_LEARN_1) : RxInv s :=
  ⟨fun hc => absurd hc h.1, fun hc => absurd hc h.2⟩

theorem rxInv_congr (s t : DState)
    (h : t.state = s.state ∧ t.rxSize = s.rxSize ∧ t.rxBuf = s.rxBuf) (hs : RxInv s) :
    RxInv t := by
  obtain ⟨h1, h2, h3⟩ := h
  unfold RxInv at *
  rw [h1, h2, h3]
  exact hs

theorem rxInv_setState (n ms : Nat) (s : DState) (hs : RxInv s) : RxInv (setState n ms s) := by
  by_cases hn : n = s.state
  · unfold setState
    rw [if_pos hn]
    exact hs
  · by_cases h1 : n = 1
    · subst h1
      rw [setState_eq_learn0 ms s hn]
      exact ⟨fun _ => ⟨show (1 : Nat) ≤ sigCap by decide, show sigCap ≤ sigCap by decide, rfl⟩,
        fun hc => absurd (show (1 : Nat) = STATE_LEARN_1 from hc) (by decide)⟩
    · by_cases h2 : n = 2
      · subst h2
        rw [setState_eq_learn1 ms s hn]
        exact ⟨fun hc => absurd (show (2 : Nat) = STATE_LEARN_0 from hc) (by decide),
          fun _ => ⟨show (1 : Nat) ≤ sigCap by decide, show sigCap ≤ sigCap by decide, rfl⟩⟩
      · refine rxInv_of_state _ ⟨?_, ?_⟩ <;> rw [setState_state]
        · exact h1
        · exact h2

theorem rxInv_loopRx (inp : Inputs) (s : DState) (hs : RxInv s) : RxInv (loopRx inp s) := by
  unfold loopRx
  split_ifs with hto hch hsz
  · exact rxInv_setState _ _ _ hs
  · exact hs
  · refine rxInv_of_state _ ⟨?_, ?_⟩ <;> rw [setState_state] <;> decide
  · constructor <;> intro hc
    · obtain ⟨ha, hb, hcc⟩ := hs.1 hc
      have h16 : s.rxSize < U16 := by
        unfold sigCap U16 at *
        omega
      have hdec := dec16 s.rxSize ha h16
      rw [(rxRecord_fields _ _ _).2.2.1, hdec] at hsz
      refine ⟨?_, ?_, ?_⟩ <;>
        rw [(rxRecord_fields _ _ _).2.2.1, hdec] <;>
        try rw [(rxRecord_fields _ _ _).2.1]
      · omega
      · omega
      · omega
    · obtain ⟨ha, hb, hcc⟩ := hs.2 hc
      have h16 : s.rxSize < U16 := by
        unfold sigCap U16 at *
        omega
      have hdec := dec16 s.rxSize ha h16
      rw [(rxRecord_fields _ _ _).2.2.1, hdec] at hsz
      refine ⟨?_, ?_, ?_⟩ <;>
        rw [(rxRecord_fields _ _ _).2.2.1, hdec] <;>
        try rw [(rxRecord_fields _ _ _).2.1]
      · omega
      · omega
      · omega

theorem rxInv_loop (inp : Inputs) (s : DState) (hs : RxInv s) : RxInv (loop inp s).1 := by
  have hbtn : ∀ (t : DState), RxInv t → RxInv ((isButtonEvent inp.button t).2) := by
    intro t ht
    refine rxInv_congr t _ ⟨?_, ?_, ?_⟩ ht <;> unfold isButtonEvent <;> split <;> rfl
  unfold loop
  split_ifs with h0 h12 h3 h46 h57
  · unfold loopUninitialized
    split_ifs with hb
    · exact rxInv_setState _ _ _ (hbtn s hs)
    · exact hbtn s hs
  · exact rxInv_loopRx inp s hs
  · unfold loopInitialized
    split_ifs with hb
    · exact rxInv_setState _ _ _ (hbtn s hs)
    · exact hbtn s hs
  · unfold loopTx
    split_ifs with hb
    · refine rxInv_setState _ _ _ (rxInv_congr s _ ⟨?_, ?_, ?_⟩ hs) <;> rfl
    · refine rxInv_congr s _ ⟨?_, ?_, ?_⟩ hs <;> rfl
  · unfold loopWait
    split_ifs with hb hw
    · exact rxInv_setState _ _ _ (hbtn s hs)
    · refine rxInv_setState _ _ _ (rxInv_congr s _ ⟨?_, ?_, ?_⟩ hs) <;>
        unfold isButtonEvent <;> split <;> rfl
    · exact hbtn s hs
  · exact rxInv_setState _ _ _ hs

theorem rxInv_runLoop_aux :
    ∀ (l : List Inputs) (s : DState), RxInv s → RxInv (runLoop l s) := by
  intro l
  induction l with
  | nil => exact fun s hs => hs
  | cons i l ih => exact fun s hs => ih _ (rxInv_loop i s hs)

/-- C3: along every `loop` run from reset, the capture cursor keeps the
`RxInv` shape, so a duration value is only ever recorded inside the active
slot's 400 entries: a non-timeout `loopRx` poll leaves every cell outside
the active slot untouched; the poll that fills the 400th entry (remaining
capacity was 1) writes it at the slot's last index and immediately resets
the state to `UNINITIALIZED` — and from `UNINITIALIZED` the only possible
transition is into `LEARN_FIRST`, so both slots must be relearned (the
learned data is discarded). -/
theorem capture_in_bounds (inps : List Inputs) (inpA inpB inpC : Inputs) (jA : Nat)
    (sA sB sC : DState)
    (hA : RxInv sA) (hsA : sA.state = STATE_LEARN_0 ∨ sA.state = STATE_LEARN_1)
    (hjA : jA < sigBase (sA.state - 1) ∨ sigBase (sA.state - 1) + sigCap ≤ jA)
    (hnoto : ¬(sA.startMicros ≠ 0 ∧
      kRxTimeoutMicros ≤ sub32 (inpA.micros % U32) sA.startMicros))
    (hB : RxInv sB) (hsB : sB.state = STATE_LEARN_0 ∨ sB.state = STATE_LEARN_1)
    (hszB : sB.rxSize = 1)
    (hnotoB : ¬(sB.startMicros ≠ 0 ∧
      kRxTimeoutMicros ≤ sub32 (inpB.micros % U32) sB.startMicros))
    (hchgB : inpB.rx ≠ sB.prevRx)
    (hC : sC.state = STATE_UNINITED) :
    RxInv (runLoop inps setupState) ∧
    (loopRx inpA sA).mem jA = sA.mem jA ∧
    ((loopRx inpB sB).state = STATE_UNINITED ∧
      (loopRx inpB sB).mem (sigBase (sB.state - 1) + (sigCap - 1)) =
        sub32 (inpB.micros % U32) sB.startMicros % U16) ∧
    ((loop inpC sC).1.state = STATE_UNINITED ∨ (loop inpC sC).1.state = STATE_LEARN_0) := by
  have hbufA : sA.rxBuf + sA.rxSize = sigBase (sA.state - 1) + sigCap ∧
      1 ≤ sA.rxSize ∧ sA.rxSize ≤ sigCap := by
    rcases hsA with h | h
    · obtain ⟨a, b, c⟩ := hA.1 h
      rw [h]
      exact ⟨c, a, b⟩
    · obtain ⟨a, b, c⟩ := hA.2 h
      rw [h]
      exact ⟨c, a, b⟩
  have hbufB : sB.rxBuf + sB.rxSize = sigBase (sB.state - 1) + sigCap := by
    rcases hsB with h | h
    · rw [h]
      exact (hB.1 h).2.2
    · rw [h]
      exact (hB.2 h).2.2
  refine ⟨rxInv_runLoop_aux inps setupState (by decide), ?_, ?_, ?_⟩
  · unfold loopRx
    rw [if_neg hnoto]
    split_ifs with hch hsz
    · rfl
    · have hne : (STATE_UNINITED : Nat) ≠ (rxRecord inpA.rx (inpA.micros % U32) sA).state := by
        rw [(rxRecord_fields _ _ _).2.2.2.2.2.1]
        rcases hsA with h | h <;> rw [h] <;> decide
      unfold STATE_UNINITED
      rw [setState_eq_uninit inpA.millis _ hne]
      show (rxRecord inpA.rx (inpA.micros % U32) sA).mem jA = sA.mem jA
      rw [(rxRecord_fields _ _ _).1, Function.update_apply,
        if_neg (by unfold sigBase sigCap at *; omega)]
    · rw [(rxRecord_fields _ _ _).1, Function.update_apply,
        if_neg (by unfold sigBase sigCap at *; omega)]
  · have hrs : (rxRecord inpB.rx (inpB.micros % U32) sB).rxSize = 0 := by
      rw [(rxRecord_fields _ _ _).2.2.1, hszB]
      decide
    have hloop : loopRx inpB sB =
        setState STATE_UNINITED inpB.millis (rxRecord inpB.rx (inpB.micros % U32) sB) := by
      unfold loopRx
      rw [if_neg hnotoB, if_neg hchgB, if_pos hrs]
    have hne : (STATE_UNINITED : Nat) ≠ (rxRecord inpB.rx (inpB.micros % U32) sB).state := by
      rw [(rxRecord_fields _ _ _).2.2.2.2.2.1]
      rcases hsB with h | h <;> rw [h] <;> decide
    constructor
    · rw [hloop, setState_state]
    · rw [hloop]
      unfold STATE_UNINITED
      rw [setState_eq_uninit inpB.millis _ hne]
      show (rxRecord inpB.rx (inpB.micros % U32) sB).mem
          (sigBase (sB.state - 1) + (sigCap - 1)) =
        sub32 (inpB.micros % U32) sB.startMicros % U16
      have hidx : sigBase (sB.state - 1) + (sigCap - 1) = sB.rxBuf := by
        unfold sigCap at *
        omega
      rw [hidx, (rxRecord_fields _ _ _).1, Function.update_same]
  · have hdispatch : loop inpC sC = (loopUninitialized inpC sC, []) := by
      unfold loop
      rw [if_pos hC]
    rw [hdispatch]
    unfold loopUninitialized
    split_ifs with hb
    · right
      exact setState_state _ _ _
    · left
      rw [isButtonEvent_state]
      exact hC

/-- A learning state one entry away from overflow, for the C3 witness. -/
def wOver : DState :=
  { setupState with
    state := STATE_LEARN_1
    rxBuf := 799
    rxSize := 1
    prevRx := HIGH
    startMicros := 7 }

/-- A learning state with a fresh capture cursor, for the C3 witness. -/
def wFresh : DState :=
  { setupState with
    state := STATE_LEARN_0
    rxBuf := sigBase 0
    rxSize := sigCap }

/-- Witness for C3: a fresh `LEARN_FIRST` poll leaves cell 750 (outside
slot 0) untouched; an overflow poll from `wOver` writes the 400th entry of
slot 1 and resets to `UNINITIALIZED`; from `UNINITIALIZED` one poll reaches
at most `LEARN_FIRST`. -/
theorem capture_in_bounds_witness :
    RxInv (runLoop [] setupState) ∧
    (loopRx ⟨0, 1, 50, 0⟩ wFresh).mem 750 = wFresh.mem 750 ∧
    ((loopRx ⟨0, 0, 10, 0⟩ wOver).state = STATE_UNINITED ∧
      (loopRx ⟨0, 0, 10, 0⟩ wOver).mem (sigBase (wOver.state - 1) + (sigCap - 1)) =
        sub32 (10 % U32) wOver.startMicros % U16) ∧
    ((loop ⟨0, 0, 0, 0⟩ setupState).1.state = STATE_UNINITED ∨
      (loop ⟨0, 0, 0, 0⟩ setupState).1.state = STATE_LEARN_0) :=
  capture_in_bounds [] ⟨0, 1, 50, 0⟩ ⟨0, 0, 10, 0⟩ ⟨0, 0, 0, 0⟩ 750 wFresh wOver setupState
    (by decide) (Or.inl rfl) (Or.inr (by decide)) (by decide)
    (by decide) (Or.inr rfl) rfl (by decide) (by decide) rfl

end DaikinIR
